import Mathlib

/-!
Verification of the FZP checker runner (scripts/checks/fzp_checker_runner.py).

The runner drives a parsed FZP document through selected FZP-side rules,
then resolves each declared view's SVG asset and drives it through the
selected SVG-side rules, accumulating a total error count and printing
line-oriented diagnostics.

The embedding below models the runner's control flow faithfully, with the
external collaborators (lxml's parser, the filesystem, the rule modules
fzp_checkers / svg_checkers and fzp_utils, which are outside this file's
scope) abstracted as an environment of functions.  Printed lines are
modelled structurally: one constructor per print statement of the runner;
lines printed by an individual rule are wrapped as `checkerLine`.
Python exceptions that escape the runner (ValueError from an unknown check
name, IndexError from indexing an empty xpath result, NameError from
referencing an unbound local) are modelled with an explicit error type.
-/

namespace FZP

/-- An XML element tree as produced by etree.parse: a tag name, an ordered
attribute list and the ordered element children.  Text nodes, comments and
processing instructions are not consulted by the runner and are omitted. -/
inductive XMLElement where
  | mk (tag : String) (attrs : List (String × String)) (children : List XMLElement)

def XMLElement.tag : XMLElement → String
  | .mk t _ _ => t

def XMLElement.attrs : XMLElement → List (String × String)
  | .mk _ a _ => a

def XMLElement.children : XMLElement → List XMLElement
  | .mk _ _ c => c

/-- Attribute lookup, element.get(name): the value of the first attribute
with the given name, or none. -/
def XMLElement.get (e : XMLElement) (name : String) : Option String :=
  (e.attrs.find? (fun p => p.1 = name)).map (fun p => p.2)

mutual
/-- xpath with a descendant-or-self axis (the runner's "//views"): all
elements with the given tag, in document (preorder) order. -/
def XMLElement.findAll (name : String) : XMLElement → List XMLElement
  | .mk t a c =>
    (if t = name then [XMLElement.mk t a c] else []) ++ XMLElement.findAllList name c

def XMLElement.findAllList (name : String) : List XMLElement → List XMLElement
  | [] => []
  | e :: es => XMLElement.findAll name e ++ XMLElement.findAllList name es
end

/-- Relative xpath selecting child elements with the given tag (the
runner's view.xpath("layers") and layers.xpath("layer")). -/
def XMLElement.childrenWithTag (e : XMLElement) (name : String) : List XMLElement :=
  e.children.filter (fun c => c.tag = name)

/-- One printed line of runner output.  Each constructor records one print
statement of fzp_checker_runner.py with its format arguments:
`invalidXML` is the print before the early return in check,
`scanningFile` and `runningCheck` are the verbose prints of check,
`runningSvgCheck`, `invalidXMLInSvg`, `svgNotFound` and `noLayers` are the
prints of the per-view SVG loop, `totalErrors` is the final report line,
and `checkerLine` wraps a line printed by an individual rule's check(). -/
inductive OutLine where
  | invalidXML (msg : String)
  | scanningFile (path : String)
  | runningCheck (name : String)
  | runningSvgCheck (name svgPath viewTag : String)
  | invalidXMLInSvg (msg : String)
  | svgNotFound (svgPath viewTag fzpPath : String)
  | noLayers (viewTag fzpPath : String)
  | totalErrors (path : String) (count : Nat)
  | checkerLine (line : String)
deriving DecidableEq

/-- Whether a printed line is one of the runner's two XML-invalidity
diagnostics (the Invalid XML print of check and the Invalid XML in SVG
print of the per-view loop). -/
def OutLine.isInvalidXmlDiag : OutLine → Bool
  | OutLine.invalidXML _ => true
  | OutLine.invalidXMLInSvg _ => true
  | _ => false

/-- A Python exception escaping the runner: ValueError (raised by the two
checker lookups for an unregistered name), IndexError (raised by indexing
an empty xpath result list), NameError (a local variable referenced before
assignment, as UnboundLocalError). -/
inductive PyError where
  | valueError (msg : String)
  | indexError
  | nameError (var : String)
deriving DecidableEq

/-- An FZP-side rule as the runner sees it: its registered name, whether
the runner constructs it with the source path as an extra argument (the
type-identity branch of _get_checker), and the behaviour of check() — the
returned error count and the lines it prints — as a function of the bound
document and the optional path.  The rule bodies live in the external
fzp_checkers module, so the behaviour is abstract here. -/
structure FZPChecker where
  get_name : String
  path_aware : Bool
  run : XMLElement → Option String → Nat × List String

/-- An SVG-side rule: its registered name and the behaviour of check() as
a function of the bound SVG document and the view's layer-id list.  The
rule bodies live in the external svg_checkers module. -/
structure SVGChecker where
  get_name : String
  run : XMLElement → List String → Nat × List String

/-- The runner's external collaborators: etree.parse (an XMLSyntaxError is
an Except.error carrying the message), os.path.isfile, FZPUtils.get_svg_path
(none models the template-SVG skip, where the runner continues without an
asset), and the two registered checker lists AVAILABLE_CHECKERS and
SVG_AVAILABLE_CHECKERS, whose members come from the external rule modules. -/
structure Env where
  parse : String → Except String XMLElement
  isfile : String → Bool
  get_svg_path : String → String → String → Option String
  available_checkers : List FZPChecker
  svg_available_checkers : List SVGChecker

/-- The mutable fields of an FZPCheckerRunner instance: path, verbose and
the total_errors accumulator. -/
structure RunnerState where
  path : String
  verbose : Bool
  total_errors : Nat
deriving DecidableEq

/-- The state threaded through _run_svg_checkers: the accumulator, the
output printed so far, and whether the function-scoped local svg_doc has
been assigned yet in this call (Python locals are function-wide, so a
binding made while processing an earlier view is still visible when a
later view's parse fails). -/
structure SvgState where
  total_errors : Nat
  output : List OutLine
  svg_doc_bound : Bool
deriving DecidableEq

/-- The observable outcome of one check() call: the runner state after the
call, the lines printed during it, and the exception that escaped it, if
any (none models a normal return). -/
structure CheckResult where
  state : RunnerState
  output : List OutLine
  exc : Option PyError
deriving DecidableEq

/-- FZPCheckerRunner._get_checker: scan AVAILABLE_CHECKERS for the first
checker whose get_name() equals the requested type; raise ValueError when
none matches. -/
def _get_checker (env : Env) (check_type : String) : Except PyError FZPChecker :=
  match env.available_checkers.find? (fun c => c.get_name = check_type) with
  | some c => Except.ok c
  | none => Except.error (PyError.valueError ("Invalid check type: " ++ check_type))

/-- FZPCheckerRunner._get_svg_checker: scan SVG_AVAILABLE_CHECKERS for the
first checker whose get_name() equals the requested type; raise ValueError
when none matches. -/
def _get_svg_checker (env : Env) (check_type : String) : Except PyError SVGChecker :=
  match env.svg_available_checkers.find? (fun c => c.get_name = check_type) with
  | some c => Except.ok c
  | none => Except.error (PyError.valueError ("Invalid SVG check type: " ++ check_type))

/-- The layer-id collection inside _run_svg_checkers: every layer child's
layerId attribute that is present and truthy (Python `if layer_id:` is
false for an empty string). -/
def extractLayerIds (layers : XMLElement) : List String :=
  (layers.childrenWithTag "layer").filterMap (fun le =>
    match le.get "layerId" with
    | some lid => if lid = "" then none else some lid
    | none => none)

/-- The inner loop of _run_svg_checkers over svg_check_types for one
successfully parsed SVG document: look the checker up (a ValueError from
_get_svg_checker propagates; the finally clause only clears the parsed
document, with no observable effect here), print the verbose line, run the
checker, add its count. -/
def runSvgChecks (env : Env) (verbose : Bool) (svg_doc : XMLElement)
    (layer_ids : List String) (svg_path viewTag : String) :
    List String → SvgState → Except (PyError × SvgState) SvgState
  | [], st => Except.ok st
  | ct :: rest, st =>
    match _get_svg_checker env ct with
    | Except.error e => Except.error (e, st)
    | Except.ok c =>
      let st1 : SvgState :=
        if verbose then
          { st with output := st.output ++ [OutLine.runningSvgCheck c.get_name svg_path viewTag] }
        else st
      let r := c.run svg_doc layer_ids
      let st2 : SvgState :=
        { st1 with total_errors := st1.total_errors + r.1,
                   output := st1.output ++ r.2.map OutLine.checkerLine }
      runSvgChecks env verbose svg_doc layer_ids svg_path viewTag rest st2

/-- The body of the per-view loop of _run_svg_checkers.  A "defaultUnits"
view is skipped outright.  A view without a layers child gets a printed
warning only.  Otherwise the image attribute is read (Python truthiness:
an absent or empty attribute skips resolution), the layer ids are
collected, get_svg_path is consulted (none means a template SVG, silently
skipped), and when the path names an existing file it is parsed: on
success the SVG checks run; on an XMLSyntaxError the diagnostic is printed
and 1 is added, after which the finally clause evaluates svg_doc — which
raises NameError when no earlier view in this call ever bound it.  A
non-existent file prints a warning and adds 1. -/
def processView (env : Env) (path : String) (verbose : Bool)
    (svg_check_types : List String) (st : SvgState) (view : XMLElement) :
    Except (PyError × SvgState) SvgState :=
  if view.tag = "defaultUnits" then Except.ok st
  else
    match view.childrenWithTag "layers" with
    | [] =>
      Except.ok { st with output := st.output ++ [OutLine.noLayers view.tag path] }
    | layers :: _ =>
      let image := layers.get "image"
      let layer_ids := extractLayerIds layers
      match image with
      | none => Except.ok st
      | some img =>
        if img = "" then Except.ok st
        else
          match env.get_svg_path path img view.tag with
          | none => Except.ok st
          | some svg_path =>
            if env.isfile svg_path then
              match env.parse svg_path with
              | Except.ok svg_doc =>
                runSvgChecks env verbose svg_doc layer_ids svg_path view.tag
                  svg_check_types { st with svg_doc_bound := true }
              | Except.error e =>
                let st1 : SvgState :=
                  { st with total_errors := st.total_errors + 1,
                            output := st.output ++ [OutLine.invalidXMLInSvg e] }
                if st.svg_doc_bound then Except.ok st1
                else Except.error (PyError.nameError "svg_doc", st1)
            else
              Except.ok { st with total_errors := st.total_errors + 1,
                                  output := st.output ++ [OutLine.svgNotFound svg_path view.tag path] }

/-- The per-view loop of _run_svg_checkers, aborting when an exception
propagates out of a view's processing. -/
def processViews (env : Env) (path : String) (verbose : Bool)
    (svg_check_types : List String) :
    List XMLElement → SvgState → Except (PyError × SvgState) SvgState
  | [], st => Except.ok st
  | v :: vs, st =>
    match processView env path verbose svg_check_types st v with
    | Except.error e => Except.error e
    | Except.ok st1 => processViews env path verbose svg_check_types vs st1

/-- FZPCheckerRunner._run_svg_checkers: take the first result of
xpath("//views") — IndexError when there is none — and process each of its
element children; the local svg_doc starts unbound. -/
def _run_svg_checkers (env : Env) (path : String) (verbose : Bool)
    (fzp_doc : XMLElement) (svg_check_types : List String)
    (total : Nat) (out : List OutLine) : Except (PyError × SvgState) SvgState :=
  match XMLElement.findAll "views" fzp_doc with
  | [] => Except.error (PyError.indexError, SvgState.mk total out false)
  | views :: _ =>
    processViews env path verbose svg_check_types views.children
      (SvgState.mk total out false)

/-- The FZP-side rule loop of check: look each requested checker up (a
ValueError propagates), print the verbose line, construct it with the path
exactly when it is one of the three path-aware classes, run it, add its
count. -/
def runFzpChecks (env : Env) (fzp_doc : XMLElement) (path : String) (verbose : Bool) :
    List String → Nat → List OutLine → Nat × List OutLine × Option PyError
  | [], total, out => (total, out, none)
  | ct :: rest, total, out =>
    match _get_checker env ct with
    | Except.error e => (total, out, some e)
    | Except.ok c =>
      let out1 := if verbose then out ++ [OutLine.runningCheck c.get_name] else out
      let r := c.run fzp_doc (if c.path_aware then some path else none)
      runFzpChecks env fzp_doc path verbose rest (total + r.1) (out1 ++ r.2.map OutLine.checkerLine)

/-- FZPCheckerRunner.check: reset total_errors to 0, parse the FZP (on an
XMLSyntaxError print the Invalid XML diagnostic, count 1 and return), print
the verbose scanning line, run the requested FZP checks, then — only when
svg_check_types is non-empty — run the SVG side, and finally print the
total line when verbose or the total is positive.  An escaping exception
skips the total line; the closing getroot().clear() has no observable
effect. -/
def check (env : Env) (s : RunnerState) (check_types svg_check_types : List String) :
    CheckResult :=
  match env.parse s.path with
  | Except.error e =>
    { state := { s with total_errors := 1 }, output := [OutLine.invalidXML e], exc := none }
  | Except.ok fzp_doc =>
    let out0 := if s.verbose then [OutLine.scanningFile s.path] else []
    match runFzpChecks env fzp_doc s.path s.verbose check_types 0 out0 with
    | (total, out, some e) =>
      { state := { s with total_errors := total }, output := out, exc := some e }
    | (total, out, none) =>
      match (if svg_check_types.isEmpty then Except.ok (SvgState.mk total out false)
             else _run_svg_checkers env s.path s.verbose fzp_doc svg_check_types total out) with
      | Except.error (e, st) =>
        { state := { s with total_errors := st.total_errors }, output := st.output, exc := some e }
      | Except.ok st =>
        let out1 :=
          if s.verbose || decide (st.total_errors > 0)
          then st.output ++ [OutLine.totalErrors s.path st.total_errors]
          else st.output
        { state := { s with total_errors := st.total_errors }, output := out1, exc := none }

/-- Path splitting on the separator, svg_file.split(os.sep) with the POSIX
separator. -/
def splitSep (p : String) : List String := p.splitOn "/"

/-- os.path.basename: the last separator-delimited component. -/
def basename (p : String) : String := (splitSep p).getLastD ""

/-- Python's substring containment test (`pat in s`): some suffix position
of s starts with pat. -/
def strContains (s pat : String) : Bool :=
  (List.range (s.length + 1)).any (fun i => pat.isPrefixOf (s.drop i))

/-- The filesystem as _search_fzp_files_with_svg consumes it: os.walk
yielding (root, files) pairs in walk order from a starting directory —
the dirs component is unused by the search — and the raw text content of
each file. -/
structure FS where
  walk : String → List (String × List String)
  content : String → String

/-- The walk loop of _search_fzp_files_with_svg: skip a root containing an
"obsolete" segment unless the target SVG is itself obsolete; collect each
.fzp file under the remaining roots whose raw content contains the SVG's
base filename. -/
def searchGo (fs : FS) (svg_filename : String) (is_obsolete : Bool) :
    List (String × List String) → List String
  | [] => []
  | (root, files) :: rest =>
    if !is_obsolete && (splitSep root).contains "obsolete" then
      searchGo fs svg_filename is_obsolete rest
    else
      files.filterMap (fun file =>
        if file.endsWith ".fzp" then
          (if strContains (fs.content (root ++ "/" ++ file)) svg_filename
           then some (root ++ "/" ++ file) else none)
        else none) ++ searchGo fs svg_filename is_obsolete rest

/-- FZPCheckerRunner._search_fzp_files_with_svg: basename the target,
compute the obsolete flag from the target's own path segments, and walk
the root directory. -/
def _search_fzp_files_with_svg (fs : FS) (svg_file fzp_dir : String) : List String :=
  searchGo fs (basename svg_file) ((splitSep svg_file).contains "obsolete") (fs.walk fzp_dir)

/-- Spec-side description of batch discovery, stated from the spec's words
for comparison with _search_fzp_files_with_svg: the set of .fzp files under
the root whose raw content contains the SVG's base filename as a substring,
excluding files under a directory path with an "obsolete" segment unless
the target SVG's own path has an "obsolete" segment. -/
def discoveredBySpec (fs : FS) (svg_file fzp_dir p : String) : Prop :=
  ∃ root files file, (root, files) ∈ fs.walk fzp_dir ∧ file ∈ files ∧
    file.endsWith ".fzp" = true ∧ p = root ++ "/" ++ file ∧
    strContains (fs.content p) (basename svg_file) = true ∧
    ((splitSep root).contains "obsolete" = true →
      (splitSep svg_file).contains "obsolete" = true)

/-! ## Concrete environments used as witnesses and counterexamples -/

/-- A well-formed FZP document with a single declared view, breadboard,
that has no layers child. -/
def docNoLayers : XMLElement :=
  XMLElement.mk "module" [] [XMLElement.mk "views" [] [XMLElement.mk "breadboard" [] []]]

/-- Environment whose only file parses to docNoLayers; no checkers are
registered and no SVG assets exist. -/
def envNoLayers : Env :=
  { parse := fun _ => Except.ok docNoLayers
    isfile := fun _ => false
    get_svg_path := fun _ _ _ => none
    available_checkers := []
    svg_available_checkers := [] }

/-- Environment whose files never parse. -/
def envBadXml : Env :=
  { parse := fun _ => Except.error "Opening and ending tag mismatch"
    isfile := fun _ => false
    get_svg_path := fun _ _ _ => none
    available_checkers := []
    svg_available_checkers := [] }

/-- A well-formed FZP document declaring one breadboard view whose layers
element references an image. -/
def docOneImage : XMLElement :=
  XMLElement.mk "module" []
    [XMLElement.mk "views" []
      [XMLElement.mk "breadboard" []
        [XMLElement.mk "layers" [("image", "breadboard/x.svg")] []]]]

/-- Environment for claim C2's failing input: the FZP parses to
docOneImage, the referenced SVG resolves to a path that exists on disk,
and parsing that SVG fails. -/
def envBadSvg : Env :=
  { parse := fun p =>
      if p = "part.fzp" then Except.ok docOneImage
      else Except.error "Opening and ending tag mismatch"
    isfile := fun _ => true
    get_svg_path := fun _ _ _ => some "svg/breadboard/x.svg"
    available_checkers := []
    svg_available_checkers := [] }

/-- A well-formed document containing no views element. -/
def docNoViews : XMLElement :=
  XMLElement.mk "module" [] [XMLElement.mk "version" [] []]

/-- Environment whose only file parses to docNoViews. -/
def envNoViews : Env :=
  { parse := fun _ => Except.ok docNoViews
    isfile := fun _ => false
    get_svg_path := fun _ _ _ => none
    available_checkers := []
    svg_available_checkers := [] }

/-- A rule registry with one document-only checker that always returns a
zero count and prints nothing, bound to an environment whose only file
parses to docNoViews. -/
def envZeroChecker : Env :=
  { parse := fun _ => Except.ok docNoViews
    isfile := fun _ => false
    get_svg_path := fun _ _ _ => none
    available_checkers := [FZPChecker.mk "missing_tags" false (fun _ _ => (0, []))]
    svg_available_checkers := [] }

/-! ## Claim theorems -/

/-- Claim C1, counterexample: in envNoLayers, the FZP declares one view
(breadboard) with no layers child; running check with the non-empty SVG
check list leaves the total error count at 0 — not 1 as the claim states —
while the missing-layers warning is printed. -/
theorem c1_counterexample :
    (check envNoLayers (RunnerState.mk "a.fzp" false 0) [] ["ids"]).state.total_errors = 0 ∧
    (check envNoLayers (RunnerState.mk "a.fzp" false 0) [] ["ids"]).output
      = [OutLine.noLayers "breadboard" "a.fzp"] ∧
    (check envNoLayers (RunnerState.mk "a.fzp" false 0) [] ["ids"]).state.total_errors ≠ 1 := by
  decide

/-- Claim C1, amended: for every view other than defaultUnits that has no
layers child, the runner prints the missing-layers warning and skips
further processing of that view only; the total error count is not
incremented. -/
theorem c1_missing_layers_warns_without_error (env : Env) (path : String) (verbose : Bool)
    (sct : List String) (st : SvgState) (view : XMLElement)
    (h1 : view.tag ≠ "defaultUnits") (h2 : view.childrenWithTag "layers" = []) :
    processView env path verbose sct st view
      = Except.ok { st with output := st.output ++ [OutLine.noLayers view.tag path] } := by
  unfold processView
  rw [if_neg h1, h2]

/-- Witness for c1_missing_layers_warns_without_error at a concrete view. -/
theorem c1_missing_layers_witness :
    (XMLElement.mk "breadboard" [] []).tag ≠ "defaultUnits" ∧
    (XMLElement.mk "breadboard" [] []).childrenWithTag "layers" = [] ∧
    processView envNoLayers "a.fzp" false ["ids"] (SvgState.mk 0 [] false)
        (XMLElement.mk "breadboard" [] [])
      = Except.ok (SvgState.mk 0 [OutLine.noLayers "breadboard" "a.fzp"] false) :=
  ⟨by decide, rfl,
    c1_missing_layers_warns_without_error envNoLayers "a.fzp" false ["ids"]
      (SvgState.mk 0 [] false) (XMLElement.mk "breadboard" [] []) (by decide) rfl⟩

/-- Claim C3: on a syntactically malformed FZP, check prints exactly the
Invalid XML diagnostic, ends with total_errors equal to 1, and returns
early — no rule execution, SVG resolution, or further output — whatever
checks were requested. -/
theorem c3_malformed_fzp_counts_one (env : Env) (s : RunnerState)
    (ct sct : List String) (msg : String)
    (h : env.parse s.path = Except.error msg) :
    check env s ct sct
      = { state := { s with total_errors := 1 }
          output := [OutLine.invalidXML msg]
          exc := none } := by
  unfold check
  rw [h]

/-- Witness for c3_malformed_fzp_counts_one on a concrete malformed file,
with checks of both kinds requested. -/
theorem c3_witness :
    envBadXml.parse "bad.fzp" = Except.error "Opening and ending tag mismatch" ∧
    check envBadXml (RunnerState.mk "bad.fzp" true 7) ["missing_tags"] ["ids"]
      = { state := RunnerState.mk "bad.fzp" true 1
          output := [OutLine.invalidXML "Opening and ending tag mismatch"]
          exc := none } :=
  ⟨rfl, c3_malformed_fzp_counts_one envBadXml (RunnerState.mk "bad.fzp" true 7)
    ["missing_tags"] ["ids"] "Opening and ending tag mismatch" rfl⟩

/-- Claim C5: a view tagged defaultUnits is skipped outright by the SVG
loop — no missing-layers warning, no error increment, no asset resolution
and no SVG rule execution: the loop state is returned unchanged. -/
theorem c5_defaultUnits_skipped (env : Env) (path : String) (verbose : Bool)
    (sct : List String) (st : SvgState) (view : XMLElement)
    (h : view.tag = "defaultUnits") :
    processView env path verbose sct st view = Except.ok st := by
  unfold processView
  rw [if_pos h]

/-- Witness for c5_defaultUnits_skipped at a concrete defaultUnits view. -/
theorem c5_witness :
    (XMLElement.mk "defaultUnits" [] []).tag = "defaultUnits" ∧
    processView envNoLayers "a.fzp" true ["ids"] (SvgState.mk 3 [] false)
        (XMLElement.mk "defaultUnits" [] [])
      = Except.ok (SvgState.mk 3 [] false) :=
  ⟨rfl, c5_defaultUnits_skipped envNoLayers "a.fzp" true ["ids"]
    (SvgState.mk 3 [] false) (XMLElement.mk "defaultUnits" [] []) rfl⟩

/-- Claim C2, evaluated at the failing input: the first processed view's
SVG exists on disk but is malformed.  The runner does print the diagnostic
and add 1 — but then the finally clause references the never-assigned
local svg_doc, so the run aborts with a NameError (UnboundLocalError)
instead of continuing with the next view. -/
theorem c2_malformed_svg_aborts_run :
    check envBadSvg (RunnerState.mk "part.fzp" false 0) [] ["ids"]
      = { state := RunnerState.mk "part.fzp" false 1
          output := [OutLine.invalidXMLInSvg "Opening and ending tag mismatch"]
          exc := some (PyError.nameError "svg_doc") } := by
  decide

/-- Claim C9: on a well-formed FZP with no views element anywhere in the
tree, check with a non-empty SVG check list escapes with an IndexError
from indexing the empty xpath("//views") result — no error is counted and
nothing is printed. -/
theorem c9_no_views_index_error (env : Env) (s : RunnerState) (doc : XMLElement)
    (sct : List String)
    (hp : env.parse s.path = Except.ok doc)
    (hv : XMLElement.findAll "views" doc = [])
    (hs : sct.isEmpty = false)
    (hverb : s.verbose = false) :
    check env s [] sct
      = { state := { s with total_errors := 0 }
          output := []
          exc := some PyError.indexError } := by
  unfold check
  rw [hp, hverb]
  simp only [Bool.false_eq_true, if_false, runFzpChecks]
  rw [hs]
  simp only [Bool.false_eq_true, if_false, _run_svg_checkers]
  rw [hv]

/-- Witness for c9_no_views_index_error at a concrete viewless document. -/
theorem c9_witness :
    envNoViews.parse "n.fzp" = Except.ok docNoViews ∧
    XMLElement.findAll "views" docNoViews = [] ∧
    List.isEmpty ["ids"] = false ∧
    check envNoViews (RunnerState.mk "n.fzp" false 4) [] ["ids"]
      = { state := RunnerState.mk "n.fzp" false 0
          output := []
          exc := some PyError.indexError } :=
  ⟨rfl, rfl, rfl,
    c9_no_views_index_error envNoViews (RunnerState.mk "n.fzp" false 4) docNoViews
      ["ids"] rfl rfl rfl rfl⟩

/-- check never reads the incoming total_errors accumulator: its first
action overwrites it with 0, so the whole result is a function of the path
and the verbose flag alone. -/
theorem check_ignores_prior_total (env : Env) (p : String) (v : Bool) (e1 e2 : Nat)
    (ct sct : List String) :
    check env (RunnerState.mk p v e1) ct sct = check env (RunnerState.mk p v e2) ct sct :=
  rfl

/-- Claim C10: every check() call resets total_errors to 0 before any
processing, so its outcome — count, printed lines and any escaping
exception — does not depend on the accumulator value left by a previous
file's run: overwriting the accumulator with any value beforehand changes
nothing. -/
theorem c10_accumulator_reset (env : Env) (s : RunnerState) (n : Nat)
    (ct sct : List String) :
    check env { s with total_errors := n } ct sct = check env s ct sct := by
  cases s with
  | mk p v e => exact check_ignores_prior_total env p v n e ct sct

/-- The path and verbose fields survive a check() call unchanged. -/
theorem check_preserves_path_verbose (env : Env) (s : RunnerState) (ct sct : List String) :
    (check env s ct sct).state.path = s.path ∧
    (check env s ct sct).state.verbose = s.verbose := by
  unfold check
  dsimp only
  repeat' split
  all_goals exact ⟨rfl, rfl⟩

/-- Claim C8: a second check() call on the runner state left by a first
one, with the same path and check-type lists, returns the identical
result — the same total_errors and the same printed lines. -/
theorem c8_check_idempotent (env : Env) (s : RunnerState) (ct sct : List String) :
    check env (check env s ct sct).state ct sct = check env s ct sct := by
  obtain ⟨hp, hv⟩ := check_preserves_path_verbose env s ct sct
  cases hst : (check env s ct sct).state with
  | mk p1 v1 e1 =>
    rw [hst] at hp hv
    cases s with
    | mk p v e =>
      cases hp
      cases hv
      exact check_ignores_prior_total env p1 v1 e1 e ct sct

/-- Claim C4: a requested check name registered in neither checker list
makes both lookups raise ValueError, and a check() call requesting that
name escapes with the ValueError while the total error count stays 0 —
the unknown name is never absorbed into total_errors. -/
theorem c4_unknown_check_raises (env : Env) (s : RunnerState) (doc : XMLElement)
    (name : String) (sct : List String)
    (hp : env.parse s.path = Except.ok doc)
    (hf : ∀ c ∈ env.available_checkers, c.get_name ≠ name)
    (hs : ∀ c ∈ env.svg_available_checkers, c.get_name ≠ name) :
    _get_checker env name
      = Except.error (PyError.valueError ("Invalid check type: " ++ name)) ∧
    _get_svg_checker env name
      = Except.error (PyError.valueError ("Invalid SVG check type: " ++ name)) ∧
    (check env s [name] sct).exc
      = some (PyError.valueError ("Invalid check type: " ++ name)) ∧
    (check env s [name] sct).state.total_errors = 0 := by
  have h1 : env.available_checkers.find? (fun c => c.get_name = name) = none := by
    rw [List.find?_eq_none]
    intro c hc
    simp [hf c hc]
  have h2 : env.svg_available_checkers.find? (fun c => c.get_name = name) = none := by
    rw [List.find?_eq_none]
    intro c hc
    simp [hs c hc]
  have hg : _get_checker env name
      = Except.error (PyError.valueError ("Invalid check type: " ++ name)) := by
    unfold _get_checker
    rw [h1]
  have hgs : _get_svg_checker env name
      = Except.error (PyError.valueError ("Invalid SVG check type: " ++ name)) := by
    unfold _get_svg_checker
    rw [h2]
  have hchk : check env s [name] sct
      = { state := { s with total_errors := 0 }
          output := if s.verbose then [OutLine.scanningFile s.path] else []
          exc := some (PyError.valueError ("Invalid check type: " ++ name)) } := by
    unfold check
    rw [hp]
    dsimp only
    unfold runFzpChecks
    rw [hg]
  exact ⟨hg, hgs, by rw [hchk], by rw [hchk]⟩

/-- Witness for c4_unknown_check_raises: the name "bogus" against an
environment with empty registries. -/
theorem c4_witness :
    _get_checker envNoViews "bogus"
      = Except.error (PyError.valueError ("Invalid check type: " ++ "bogus")) ∧
    _get_svg_checker envNoViews "bogus"
      = Except.error (PyError.valueError ("Invalid SVG check type: " ++ "bogus")) ∧
    (check envNoViews (RunnerState.mk "n.fzp" false 2) ["bogus"] ["ids"]).exc
      = some (PyError.valueError ("Invalid check type: " ++ "bogus")) ∧
    (check envNoViews (RunnerState.mk "n.fzp" false 2) ["bogus"] ["ids"]).state.total_errors
      = 0 :=
  c4_unknown_check_raises envNoViews (RunnerState.mk "n.fzp" false 2) docNoViews
    "bogus" ["ids"] rfl (fun _ hc => nomatch hc) (fun _ hc => nomatch hc)

/-- When every requested FZP check resolves and returns a zero count, the
rule loop leaves the accumulator unchanged, raises nothing, and adds no
XML-invalidity diagnostic to the output. -/
theorem runFzpChecks_all_zero (env : Env) (doc : XMLElement) (path : String)
    (verbose : Bool) :
    ∀ (cts : List String) (t : Nat) (out : List OutLine),
      (∀ ct ∈ cts, ∃ c, _get_checker env ct = Except.ok c ∧
        (c.run doc (if c.path_aware then some path else none)).1 = 0) →
      (∀ l ∈ out, OutLine.isInvalidXmlDiag l = false) →
      ∃ out2, runFzpChecks env doc path verbose cts t out = (t, out2, none) ∧
        ∀ l ∈ out2, OutLine.isInvalidXmlDiag l = false := by
  intro cts
  induction cts with
  | nil =>
    intro t out _ hout
    exact ⟨out, rfl, hout⟩
  | cons ct rest ih =>
    intro t out hcts hout
    obtain ⟨c, hc, hz⟩ := hcts ct (List.mem_cons_self ct rest)
    have hrest : ∀ ct' ∈ rest, ∃ c, _get_checker env ct' = Except.ok c ∧
        (c.run doc (if c.path_aware then some path else none)).1 = 0 :=
      fun ct' h => hcts ct' (List.mem_cons_of_mem ct h)
    have hout1 : ∀ l ∈ (if verbose then out ++ [OutLine.runningCheck c.get_name] else out)
        ++ List.map OutLine.checkerLine
          (c.run doc (if c.path_aware then some path else none)).2,
        OutLine.isInvalidXmlDiag l = false := by
      intro l hl
      rcases List.mem_append.mp hl with h | h
      · split at h
        · rcases List.mem_append.mp h with h2 | h2
          · exact hout l h2
          · rw [List.mem_singleton.mp h2]
            rfl
        · exact hout l h
      · obtain ⟨x, _, hx⟩ := List.mem_map.mp h
        rw [← hx]
        rfl
    unfold runFzpChecks
    rw [hc]
    dsimp only
    rw [hz, Nat.add_zero]
    exact ih t _ hrest hout1

/-- Claim C7: on a well-formed FZP, when every selected FZP rule resolves
and returns zero violations and no SVG checks are requested, check()
finishes with total_errors equal to 0 and prints no XML-invalidity
diagnostic. -/
theorem c7_zero_violations_clean (env : Env) (s : RunnerState) (doc : XMLElement)
    (ct : List String)
    (hp : env.parse s.path = Except.ok doc)
    (hr : ∀ ct' ∈ ct, ∃ c, _get_checker env ct' = Except.ok c ∧
      (c.run doc (if c.path_aware then some s.path else none)).1 = 0) :
    (check env s ct []).state.total_errors = 0 ∧
    ∀ l ∈ (check env s ct []).output, OutLine.isInvalidXmlDiag l = false := by
  have h0 : ∀ l ∈ (if s.verbose then [OutLine.scanningFile s.path] else []),
      OutLine.isInvalidXmlDiag l = false := by
    intro l hl
    split at hl
    · rw [List.mem_singleton.mp hl]
      rfl
    · cases hl
  obtain ⟨out2, hrun, hout2⟩ := runFzpChecks_all_zero env doc s.path s.verbose ct 0 _ hr h0
  have hchk : check env s ct []
      = { state := { s with total_errors := 0 }
          output := if (s.verbose || decide (0 > 0)) = true
                    then out2 ++ [OutLine.totalErrors s.path 0] else out2
          exc := none } := by
    unfold check
    rw [hp]
    dsimp only
    rw [hrun]
    rfl
  rw [hchk]
  refine ⟨rfl, ?_⟩
  intro l hl
  dsimp only at hl
  rcases hv : s.verbose with _ | _
  · rw [hv] at hl
    simp only [Bool.false_or, Nat.lt_irrefl, decide_eq_true_eq] at hl
    exact hout2 l (by simpa using hl)
  · rw [hv] at hl
    simp only [Bool.true_or, if_pos] at hl
    rcases List.mem_append.mp hl with h | h
    · exact hout2 l h
    · rw [List.mem_singleton.mp h]
      rfl

/-- Witness for c7_zero_violations_clean: one registered zero-count check
on a concrete well-formed file. -/
theorem c7_witness :
    (check envZeroChecker (RunnerState.mk "ok.fzp" true 9) ["missing_tags"] []).state.total_errors
      = 0 ∧
    ∀ l ∈ (check envZeroChecker (RunnerState.mk "ok.fzp" true 9) ["missing_tags"] []).output,
      OutLine.isInvalidXmlDiag l = false :=
  c7_zero_violations_clean envZeroChecker (RunnerState.mk "ok.fzp" true 9) docNoViews
    ["missing_tags"] rfl
    (fun ct' h => by
      rw [List.mem_singleton.mp h]
      exact ⟨FZPChecker.mk "missing_tags" false (fun _ _ => (0, [])), rfl, rfl⟩)

/-- On Bool, not being skipped (the negated guard of the walk loop) is the
same as the exclusion convention stated as an implication. -/
theorem bool_skip_equiv (b c : Bool) : ¬(b = false ∧ c = true) ↔ (c = true → b = true) := by
  cases b <;> cases c <;> simp

/-- Membership in the walk loop's result: a path is collected exactly when
some walked (root, files) pair yields it as an .fzp file whose content
contains the target filename, with the root not skipped by the obsolete
guard. -/
theorem searchGo_mem (fs : FS) (sfn : String) (obs : Bool) :
    ∀ (L : List (String × List String)) (p : String),
      p ∈ searchGo fs sfn obs L ↔
        ∃ root files file, (root, files) ∈ L ∧ file ∈ files ∧
          file.endsWith ".fzp" = true ∧ p = root ++ "/" ++ file ∧
          strContains (fs.content p) sfn = true ∧
          ¬(obs = false ∧ (splitSep root).contains "obsolete" = true) := by
  intro L
  induction L with
  | nil =>
    intro p
    simp [searchGo]
  | cons hd rest ih =>
    intro p
    obtain ⟨root, files⟩ := hd
    unfold searchGo
    by_cases hskip : (!obs && (splitSep root).contains "obsolete") = true
    · rw [if_pos hskip, ih p]
      rw [Bool.and_eq_true, Bool.not_eq_true'] at hskip
      constructor
      · rintro ⟨r, fl, f, hmem, h2, h3, h4, h5, h6⟩
        exact ⟨r, fl, f, List.mem_cons_of_mem _ hmem, h2, h3, h4, h5, h6⟩
      · rintro ⟨r, fl, f, hmem, h2, h3, h4, h5, h6⟩
        rcases List.mem_cons.mp hmem with heq | hmem'
        · rw [Prod.mk.injEq] at heq
          exact absurd ⟨hskip.1, heq.1 ▸ hskip.2⟩ h6
        · exact ⟨r, fl, f, hmem', h2, h3, h4, h5, h6⟩
    · rw [if_neg hskip]
      have hok : ¬(obs = false ∧ (splitSep root).contains "obsolete" = true) := by
        rw [Bool.and_eq_true, Bool.not_eq_true'] at hskip
        intro hcontra
        exact hskip ⟨hcontra.1, hcontra.2⟩
      rw [List.mem_append, List.mem_filterMap, ih p]
      constructor
      · rintro (⟨f, hf, heq⟩ | ⟨r, fl, f, hmem, h2, h3, h4, h5, h6⟩)
        · by_cases hfzp : f.endsWith ".fzp" = true
          · rw [if_pos hfzp] at heq
            by_cases hcont : strContains (fs.content (root ++ "/" ++ f)) sfn = true
            · rw [if_pos hcont] at heq
              refine ⟨root, files, f, List.mem_cons_self _ _, hf, hfzp,
                (Option.some.injEq _ _ ▸ heq).symm, ?_, hok⟩
              rw [← Option.some.inj heq]
              exact hcont
            · rw [if_neg hcont] at heq
              cases heq
          · rw [if_neg hfzp] at heq
            cases heq
        · exact ⟨r, fl, f, List.mem_cons_of_mem _ hmem, h2, h3, h4, h5, h6⟩
      · rintro ⟨r, fl, f, hmem, h2, h3, h4, h5, h6⟩
        rcases List.mem_cons.mp hmem with heq | hmem'
        · rw [Prod.mk.injEq] at heq
          refine Or.inl ⟨f, heq.2 ▸ h2, ?_⟩
          rw [if_pos h3]
          rw [heq.1] at h4
          rw [if_pos (h4 ▸ h5)]
          rw [h4]
        · exact Or.inr ⟨r, fl, f, hmem', h2, h3, h4, h5, h6⟩

/-- Claim C6: batch discovery returns exactly the .fzp files under the
walked root whose raw content contains the target SVG's base filename,
excluding files under a directory path with an "obsolete" segment unless
the target SVG's own path has one. -/
theorem c6_batch_discovery (fs : FS) (svg_file fzp_dir p : String) :
    p ∈ _search_fzp_files_with_svg fs svg_file fzp_dir ↔
      discoveredBySpec fs svg_file fzp_dir p := by
  unfold _search_fzp_files_with_svg discoveredBySpec
  rw [searchGo_mem]
  simp only [bool_skip_equiv]

end FZP
